import Mathlib

/-!
Shallow embedding of the per-frame simulation core of three small arcade
games (flight-avoidance / flappy-bird, two-paddle ball / pong, growing-trail
/ snake).  Floating-point scalars of the source are modelled as exact
rationals; 2-D vectors as pairs of rationals (the z component of the
engine's 3-D transforms is constant 0 and is omitted).  Each Lean
definition carries a doc comment naming the source item it embeds.
-/

/-- Two-dimensional vector of rational scalars, embedding the engine's `Vec2` (and the
xy-part of `Vec3` translations, whose z stays 0 in every system here). -/
structure Vec2 where
  x : ℚ
  y : ℚ
deriving DecidableEq, Repr

instance : Neg Vec2 where
  neg v := ⟨-v.x, -v.y⟩

theorem Vec2.neg_def (v : Vec2) : -v = ⟨-v.x, -v.y⟩ := rfl

/-! Flappy-bird (flight-avoidance game), src/flappy-bird/src/main.rs -/

/-- Constant `WINDOW_RESOLUTION` from src/flappy-bird/src/main.rs. -/
def WINDOW_RESOLUTION : Vec2 := ⟨288, 512⟩

/-- Constant `BIRD_WIDTH`. -/
def BIRD_WIDTH : ℚ := 24

/-- Constant `BIRD_HEIGHT`. -/
def BIRD_HEIGHT : ℚ := 32

/-- Constant `GRAVITY`. -/
def GRAVITY : Vec2 := ⟨0, -8⟩

/-- Constant `PIPE_WIDTH`. -/
def PIPE_WIDTH : ℚ := 52

/-- Constant `PIPE_HEIGHT`. -/
def PIPE_HEIGHT : ℚ := 320

/-- Embeds `struct Rect { min, max }` from src/flappy-bird/src/main.rs. -/
structure Rect where
  min : Vec2
  max : Vec2
deriving DecidableEq, Repr

/-- Embeds `Rect::from_center_size`: min = center - size/2, max = center + size/2. -/
def Rect.from_center_size (center size : Vec2) : Rect :=
  ⟨⟨center.x - size.x / 2, center.y - size.y / 2⟩,
   ⟨center.x + size.x / 2, center.y + size.y / 2⟩⟩

/-- Embeds `Rect::overlaps`: strict AABB overlap test on both axes. -/
def Rect.overlaps (self other : Rect) : Bool :=
  decide (self.min.x < other.max.x) && decide (self.max.x > other.min.x)
    && decide (self.min.y < other.max.y) && decide (self.max.y > other.min.y)

/-- State of the bird carried by `Bird { velocity }` plus its `Transform`
translation: position and velocity. -/
structure BirdState where
  pos : Vec2
  vel : Vec2
deriving DecidableEq, Repr

/-- Embeds `update_bird_system` (kinematic part): `bird.velocity += GRAVITY * dt;`
then `bird_transform.translation += bird.velocity.extend(0.)` — note the
velocity is added to the position directly, not multiplied by `dt`. -/
def update_bird (dt : ℚ) (b : BirdState) : BirdState :=
  let v : Vec2 := ⟨b.vel.x + GRAVITY.x * dt, b.vel.y + GRAVITY.y * dt⟩
  ⟨⟨b.pos.x + v.x, b.pos.y + v.y⟩, v⟩

/-- The vertical out-of-bounds test of `bird_collision_system`:
`bird_pos.y - bird_size.y / 2. <= -WINDOW_RESOLUTION.y / 2. ||
 bird_pos.y + bird_size.y / 2. >= WINDOW_RESOLUTION.y / 2.`. -/
def bird_out_of_bounds (bird_pos : Vec2) : Bool :=
  decide (bird_pos.y - BIRD_HEIGHT / 2 ≤ -(WINDOW_RESOLUTION.y / 2))
    || decide (bird_pos.y + BIRD_HEIGHT / 2 ≥ WINDOW_RESOLUTION.y / 2)

/-- Embeds `bird_collision_system`: for each pipe, if the bird rect overlaps the
pipe rect OR the bird is out of vertical bounds, send the exit event.  The
result is whether at least one exit event is sent this frame.  The bounds
test sits INSIDE the loop over pipes, exactly as in the source. -/
def bird_collision_system (bird_pos : Vec2) (pipes : List Vec2) : Bool :=
  let bird_rect := Rect.from_center_size bird_pos ⟨BIRD_WIDTH, BIRD_HEIGHT⟩
  pipes.any (fun pipe_pos =>
    let pipe_rect := Rect.from_center_size pipe_pos ⟨PIPE_WIDTH, PIPE_HEIGHT⟩
    bird_rect.overlaps pipe_rect || bird_out_of_bounds bird_pos)

/-! Pong (two-paddle ball game), src/pong-game/src/main.rs -/

/-- Constant `WINDOW_WIDTH` from src/pong-game/src/main.rs (shared value with
the snake game). -/
def WINDOW_WIDTH : ℚ := 800

/-- Constant `WINDOW_HEIGHT` from src/pong-game/src/main.rs (shared value with
the snake game). -/
def WINDOW_HEIGHT : ℚ := 600

/-- Constant `BALL_SIZE`. -/
def BALL_SIZE : Vec2 := ⟨10, 10⟩

/-- Constant `PADDLE_SIZE`. -/
def PADDLE_SIZE : Vec2 := ⟨100, 10⟩

/-- The ball's `Transform` translation and `Velocity` component (xy-part;
the z components stay 0). -/
structure BallState where
  pos : Vec2
  vel : Vec2
deriving DecidableEq, Repr

/-- Embeds the `wall_collision_system` body: each axis independently — if the ball's
position is past an x-edge threshold, `velocity.0.x *= -1.`; if past a
y-edge threshold, `velocity.0.y *= -1.`; the position is not modified. -/
def wall_collision_system (b : BallState) : BallState :=
  let vx : ℚ :=
    if b.pos.x < -(WINDOW_WIDTH / 2) + BALL_SIZE.x / 2
        ∨ b.pos.x > WINDOW_WIDTH / 2 - BALL_SIZE.x / 2
    then -b.vel.x else b.vel.x
  let vy : ℚ :=
    if b.pos.y < -(WINDOW_HEIGHT / 2) + BALL_SIZE.y / 2
        ∨ b.pos.y > WINDOW_HEIGHT / 2 - BALL_SIZE.y / 2
    then -b.vel.y else b.vel.y
  ⟨b.pos, ⟨vx, vy⟩⟩

/-- Embeds `aabb_collision` from src/pong-game/src/main.rs:
`|a.x - b.x| < (a_size.x + b_size.x)/2 && |a.y - b.y| < (a_size.y + b_size.y)/2`. -/
def aabb_collision (a_pos a_size b_pos b_size : Vec2) : Bool :=
  decide (|a_pos.x - b_pos.x| < (a_size.x + b_size.x) / 2)
    && decide (|a_pos.y - b_pos.y| < (a_size.y + b_size.y) / 2)

/-- Embeds the `paddle_collision_system` body: iterate the paddle transforms in order;
on the first AABB hit against the ball, `velocity.0.y *= -1.` and `return`
(so at most one inversion per frame).  The paddle query is an immutable
borrow in the source, so paddle state cannot change; the function returns
the new ball state only. -/
def paddle_collision_system (ball : BallState) : List Vec2 → BallState
  | [] => ball
  | p :: rest =>
    if aabb_collision ball.pos BALL_SIZE p PADDLE_SIZE
    then ⟨ball.pos, ⟨ball.vel.x, -ball.vel.y⟩⟩
    else paddle_collision_system ball rest

/-! Snake (growing-trail game), src/snake-game/src/main.rs -/

/-- Constant `SNAKE_SIZE`. -/
def SNAKE_SIZE : Vec2 := ⟨10, 10⟩

/-- Constant `FOOD_SIZE`. -/
def FOOD_SIZE : Vec2 := ⟨10, 10⟩

/-- Constant `SNAKE_SPEED`. -/
def SNAKE_SPEED : ℚ := 200

/-- Embeds the source's `head_position.distance(p) < r` tests (Euclidean
distance against a nonnegative radius) without square roots: for `0 ≤ r`,
`distance a b < r` holds iff the squared distance is `< r^2`. -/
def dist_lt (a b : Vec2) (r : ℚ) : Bool :=
  decide ((a.x - b.x) ^ 2 + (a.y - b.y) ^ 2 < r ^ 2)

/-- The pressed-state of the four arrow keys read by `snake_input_system`. -/
structure Keys where
  up : Bool
  down : Bool
  left : Bool
  right : Bool
deriving DecidableEq, Repr

/-- Embeds `snake_input_system`: an if/else-if chain; each arrow key sets the
direction to its unit vector only when the current direction is not that
vector's negation (Up → `Vec2::Y` unless dir = `-Vec2::Y`, etc.);
otherwise the direction is left unchanged. -/
def snake_input_system (keys : Keys) (d : Vec2) : Vec2 :=
  if keys.up = true ∧ d ≠ (⟨0, -1⟩ : Vec2) then ⟨0, 1⟩
  else if keys.down = true ∧ d ≠ (⟨0, 1⟩ : Vec2) then ⟨0, -1⟩
  else if keys.left = true ∧ d ≠ (⟨1, 0⟩ : Vec2) then ⟨-1, 0⟩
  else if keys.right = true ∧ d ≠ (⟨-1, 0⟩ : Vec2) then ⟨1, 0⟩
  else d

/-- The four directions the program can ever store in the `Direction`
resource: it is initialised to `Vec2::X` and only ever assigned
`±Vec2::X` / `±Vec2::Y` by `snake_input_system`. -/
def unit_dirs : List Vec2 := [⟨1, 0⟩, ⟨-1, 0⟩, ⟨0, 1⟩, ⟨0, -1⟩]

/-- Embeds `snake_movement_system` with every chain entity live (the chain is
spawned whole in `setup` and only grows): snapshot all positions, move the
head by `dir * SNAKE_SPEED * dt`, then set each segment `i ≥ 1` to the
snapshot value at `i - 1`.  The chain is represented by its list of
positions, index 0 = head. -/
def snake_movement_system (dt : ℚ) (dir : Vec2) : List Vec2 → List Vec2
  | [] => []
  | h :: rest =>
    ⟨h.x + dir.x * SNAKE_SPEED * dt, h.y + dir.y * SNAKE_SPEED * dt⟩
      :: (h :: rest).take rest.length

/-- Embeds `self_collision_system`: early return (no signal) when the chain is
shorter than 4; otherwise send the exit event if the head's distance to
some segment of `snake.0[1..]` is `< SNAKE_SIZE.x / 2.0`.  The result is
whether at least one exit event is sent. -/
def self_collision_system (chain : List Vec2) : Bool :=
  if chain.length < 4 then false
  else
    match chain with
    | [] => false
    | head_pos :: segs => segs.any (fun s => dist_lt head_pos s (SNAKE_SIZE.x / 2))

/-- The self-collision predicate as the claim words it: the proximity test
with `combinedRadius` = head half-width + segment half-width
(= `SNAKE_SIZE.x / 2 + SNAKE_SIZE.x / 2` = 10), length threshold as in the
source.  Kept separate so it can be compared with
`self_collision_system`, which embeds the source. -/
def claimed_self_collision (chain : List Vec2) : Bool :=
  if chain.length < 4 then false
  else
    match chain with
    | [] => false
    | head_pos :: segs =>
      segs.any (fun s => dist_lt head_pos s (SNAKE_SIZE.x / 2 + SNAKE_SIZE.x / 2))

/-! Spawn timer (flappy-bird `PipeTimer`) -/

/-- Modelled from the spec: the repeating spawn timer behind
`PipeTimer(Timer::from_seconds(PIPE_SPAWN_INTERVAL, TimerMode::Repeating))`.
The `Timer` implementation is an external engine dependency, not part of
this repository's sources; the spec's SpawnScheduler contract says
`tick(dt)` advances `elapsed`, and when `elapsed >= interval` it fires
exactly once (no catch-up bursts) and resets `elapsed` to 0. -/
structure SpawnTimer where
  interval : ℚ
  elapsed : ℚ
deriving DecidableEq, Repr

/-- Modelled from the spec: one tick of the repeating timer; returns the
next timer state and whether it fired this tick. -/
def SpawnTimer.tick (t : SpawnTimer) (dt : ℚ) : SpawnTimer × Bool :=
  let e := t.elapsed + dt
  if t.interval ≤ e then (⟨t.interval, 0⟩, true) else (⟨t.interval, e⟩, false)

/-- The pipe timer as created in `setup`: interval `PIPE_SPAWN_INTERVAL`
= 2.0 seconds, nothing elapsed yet. -/
def pipe_timer_init : SpawnTimer := ⟨2, 0⟩

/-- The pipe timer's state after `n` ticks of constant `dt = 0.5`. -/
def pipe_timer_after (n : ℕ) : SpawnTimer :=
  (fun s => (SpawnTimer.tick s (1 / 2)).1)^[n] pipe_timer_init

/-- Whether the `n`-th tick (1-based) of constant `dt = 0.5` fires. -/
def pipe_timer_fires (n : ℕ) : Bool :=
  (SpawnTimer.tick (pipe_timer_after (n - 1)) (1 / 2)).2

/-! Missing-entity behavior of the per-frame systems

Each wrapper runs one system on an optional singleton entity, mirroring
how the source system reacts when its query matches nothing:
`Except.ok` models normal completion (with the possibly-unchanged state),
`Except.error ()` models a panic. -/

/-- Runs `update_bird_system` on an optional bird: the source uses
`let Ok(..) = bird_query.get_single_mut() else { return; }`, a silent
no-op when no bird exists. -/
def update_bird_run (dt : ℚ) : Option BirdState → Except Unit (Option BirdState)
  | none => .ok none
  | some b => .ok (some (update_bird dt b))

/-- Runs `bird_collision_system` on an optional bird: the source uses
`let Ok(..) = bird_query.get_single() else { return; }`, a silent no-op
when no bird exists. -/
def bird_collision_run (bird : Option Vec2) (pipes : List Vec2) :
    Except Unit (Option Bool) :=
  match bird with
  | none => .ok none
  | some p => .ok (some (bird_collision_system p pipes))

/-- Runs `wall_collision_system` on an optional ball: the source calls
`ball_query.single_mut()`, which PANICS when the query matches no
entity — modelled as `Except.error ()`. -/
def wall_collision_run : Option BallState → Except Unit (Option BallState)
  | none => .error ()
  | some b => .ok (some (wall_collision_system b))

/-- Runs `paddle_collision_system` on an optional ball: the source calls
`ball_query.single_mut()`, which PANICS when the query matches no
entity — modelled as `Except.error ()`. -/
def paddle_collision_run (ball : Option BallState) (paddles : List Vec2) :
    Except Unit (Option BallState) :=
  match ball with
  | none => .error ()
  | some b => .ok (some (paddle_collision_system b paddles))

/-! Theorems for the spec claims -/

/-- Claim C1, counterexample: with ZERO pipes live, a bird far below the
bottom bound raises no game-over signal, because the bounds test of
`bird_collision_system` sits inside the loop over pipes; the claim says a
signal is raised "also when zero obstacles are live". -/
theorem C1_counterexample :
    bird_out_of_bounds ⟨0, -300⟩ = true
      ∧ bird_collision_system ⟨0, -300⟩ [] = false := by
  constructor
  · norm_num [bird_out_of_bounds, BIRD_HEIGHT, WINDOW_RESOLUTION]
  · simp [bird_collision_system]

/-- Claim C1 as amended: on every frame in which the bird's vertical extent
crosses the top or bottom bound AND at least one pipe is live, the
game-over signal is raised that same frame; with zero pipes live no signal
is ever raised, bounds crossing or not. -/
theorem C1_amended_boundary_exit (bird_pos : Vec2) (pipes : List Vec2)
    (hb : bird_out_of_bounds bird_pos = true) (hp : pipes ≠ []) :
    bird_collision_system bird_pos pipes = true
      ∧ bird_collision_system bird_pos [] = false := by
  refine ⟨?_, by simp [bird_collision_system]⟩
  cases pipes with
  | nil => exact absurd rfl hp
  | cons p ps => simp [bird_collision_system, hb]

/-- Witness for C1 as amended: a bird below the bottom bound with one pipe
live raises the signal. -/
theorem C1_amended_witness :
    bird_collision_system ⟨0, -300⟩ [⟨500, 0⟩] = true :=
  (C1_amended_boundary_exit ⟨0, -300⟩ [⟨500, 0⟩]
    (by norm_num [bird_out_of_bounds, BIRD_HEIGHT, WINDOW_RESOLUTION])
    (by simp)).1

/-- Claim C2, counterexample: with the head at distance 7 from a non-head
segment (chain length 4), the claim's combined-radius test (7 < 5 + 5)
signals game-over, but `self_collision_system` does not: the source
compares against `SNAKE_SIZE.x / 2.0` = 5 alone, not against the sum of
the two half-widths. -/
theorem C2_counterexample :
    claimed_self_collision [⟨0, 0⟩, ⟨7, 0⟩, ⟨20, 0⟩, ⟨40, 0⟩] = true
      ∧ self_collision_system [⟨0, 0⟩, ⟨7, 0⟩, ⟨20, 0⟩, ⟨40, 0⟩] = false := by
  constructor
  · simp [claimed_self_collision, dist_lt, SNAKE_SIZE]
    norm_num
  · simp [self_collision_system, dist_lt, SNAKE_SIZE]
    norm_num

/-- Claim C2 as amended: whenever chain length ≥ 4, game-over is raised iff
the distance from the head's center to some non-head segment's center is
strictly less than ONE half-width (`SNAKE_SIZE.x / 2` = 5), and for chains
of length < 4 no self-collision game-over is ever raised. -/
theorem C2_amended_self_collision (head_pos : Vec2) (segs : List Vec2) :
    (self_collision_system (head_pos :: segs) = true ↔
        4 ≤ segs.length + 1
          ∧ ∃ s ∈ segs, dist_lt head_pos s (SNAKE_SIZE.x / 2) = true)
      ∧ (∀ chain : List Vec2, chain.length < 4 → self_collision_system chain = false) := by
  constructor
  · by_cases h : segs.length + 1 < 4
    · simp [self_collision_system, h]
      omega
    · simp [self_collision_system, h, List.any_eq_true]
      omega
  · intro chain hlen
    simp [self_collision_system, hlen]

/-- Witness for C2 as amended: a length-4 chain whose head is at distance 3
from a segment (3 < 5) raises game-over. -/
theorem C2_amended_witness :
    self_collision_system [⟨0, 0⟩, ⟨3, 0⟩, ⟨20, 0⟩, ⟨40, 0⟩] = true :=
  (C2_amended_self_collision ⟨0, 0⟩ [⟨3, 0⟩, ⟨20, 0⟩, ⟨40, 0⟩]).1.mpr
    ⟨by norm_num, ⟨3, 0⟩, by simp, by norm_num [dist_lt, SNAKE_SIZE]⟩

/-- Claim C3: one tick of chain propagation yields a chain of the same
length whose head is the old head moved by `direction * speed * dt` and
whose segment at index `i ≥ 1` holds the pre-tick position of segment
`i - 1`; concretely, chain `[(0,0),(-10,0),(-20,0)]` with direction
`(1,0)`, speed 200, `dt = 0.05` becomes `[(10,0),(0,0),(-10,0)]`. -/
theorem C3_chain_propagation (dt : ℚ) (dir : Vec2) (h : Vec2) (rest : List Vec2) :
    ((snake_movement_system dt dir (h :: rest)).length = rest.length + 1
        ∧ (snake_movement_system dt dir (h :: rest))[0]? =
            some ⟨h.x + dir.x * SNAKE_SPEED * dt, h.y + dir.y * SNAKE_SPEED * dt⟩
        ∧ ∀ i, i < rest.length →
            (snake_movement_system dt dir (h :: rest))[i + 1]? = (h :: rest)[i]?)
      ∧ snake_movement_system (1 / 20) ⟨1, 0⟩ [⟨0, 0⟩, ⟨-10, 0⟩, ⟨-20, 0⟩]
          = [⟨10, 0⟩, ⟨0, 0⟩, ⟨-10, 0⟩] := by
  refine ⟨⟨?_, ?_, ?_⟩, ?_⟩
  · simp [snake_movement_system]
  · simp [snake_movement_system]
  · intro i hi
    simp [snake_movement_system, List.getElem?_take, hi]
  · norm_num [snake_movement_system, SNAKE_SPEED]

/-- Witness for C3: in the concrete scenario, post-tick segment 1 sits at
the pre-tick position of segment 0. -/
theorem C3_witness :
    (snake_movement_system (1 / 20) ⟨1, 0⟩ [⟨0, 0⟩, ⟨-10, 0⟩, ⟨-20, 0⟩])[1]?
      = ([⟨0, 0⟩, ⟨-10, 0⟩, ⟨-20, 0⟩] : List Vec2)[0]? :=
  (C3_chain_propagation (1 / 20) ⟨1, 0⟩ ⟨0, 0⟩ [⟨-10, 0⟩, ⟨-20, 0⟩]).1.2.2 0 (by norm_num)

/-- Claim C4, counterexample: the ball game's `wall_collision_system` calls
`Query::single_mut`, which panics when the ball query matches no entity —
it is not a silent no-op, refuting "no per-frame system aborts or panics
on a missing expected entity". -/
theorem C4_counterexample : wall_collision_run none = Except.error () := rfl

/-- Claim C4 as amended: the flappy-bird systems treat a missing avatar as
a silent no-op for the frame (they use `get_single` with an early return),
but the ball game's wall- and paddle-collision systems panic on a missing
ball (they use `single_mut`). -/
theorem C4_amended_missing_entity :
    (∀ dt : ℚ, update_bird_run dt none = Except.ok none)
      ∧ (∀ pipes : List Vec2, bird_collision_run none pipes = Except.ok none)
      ∧ wall_collision_run none = Except.error ()
      ∧ (∀ paddles : List Vec2, paddle_collision_run none paddles = Except.error ()) :=
  ⟨fun _ => rfl, fun _ => rfl, rfl, fun _ => rfl⟩

/-- The pipe timer's state after `n` half-second ticks: interval 2 and
elapsed `(n % 4) / 2` seconds. -/
theorem pipe_timer_after_eq (n : ℕ) :
    pipe_timer_after n = ⟨2, ((n % 4 : ℕ) : ℚ) / 2⟩ := by
  induction n with
  | zero => simp [pipe_timer_after, pipe_timer_init]
  | succ n ih =>
    rw [pipe_timer_after, Function.iterate_succ_apply', ← pipe_timer_after, ih]
    have h4 : n % 4 = 0 ∨ n % 4 = 1 ∨ n % 4 = 2 ∨ n % 4 = 3 := by omega
    rcases h4 with h | h | h | h
    · have h1 : (n + 1) % 4 = 1 := by omega
      rw [h, h1]; norm_num [SpawnTimer.tick]
    · have h1 : (n + 1) % 4 = 2 := by omega
      rw [h, h1]; norm_num [SpawnTimer.tick]
    · have h1 : (n + 1) % 4 = 3 := by omega
      rw [h, h1]; norm_num [SpawnTimer.tick]
    · have h1 : (n + 1) % 4 = 0 := by omega
      rw [h, h1]; norm_num [SpawnTimer.tick]

/-- Claim C5: the spawn timer fires exactly when accumulated elapsed
reaches the interval, fires at most once per tick (its fired flag is a
single boolean), resets elapsed to 0 on firing (and accumulates `dt`
otherwise); with interval 2.0 and constant `dt = 0.5` it fires on exactly
the 4th tick and then again every 4 ticks, never before. -/
theorem C5_spawn_timer_contract :
    (∀ (t : SpawnTimer) (dt : ℚ),
        ((t.tick dt).2 = true ↔ t.interval ≤ t.elapsed + dt)
          ∧ ((t.tick dt).2 = true → (t.tick dt).1.elapsed = 0)
          ∧ ((t.tick dt).2 = false → (t.tick dt).1.elapsed = t.elapsed + dt))
      ∧ (∀ n : ℕ, 1 ≤ n → (pipe_timer_fires n = true ↔ n % 4 = 0)) := by
  constructor
  · intro t dt
    refine ⟨?_, ?_, ?_⟩ <;> simp only [SpawnTimer.tick] <;> split <;> simp_all
  · intro n hn
    rw [pipe_timer_fires, pipe_timer_after_eq]
    have h4 : (n - 1) % 4 = 0 ∨ (n - 1) % 4 = 1 ∨ (n - 1) % 4 = 2 ∨ (n - 1) % 4 = 3 := by
      omega
    rcases h4 with h | h | h | h <;> rw [h] <;>
      norm_num [SpawnTimer.tick] <;> omega

/-- Witness for C5: the 4th half-second tick fires. -/
theorem C5_witness : pipe_timer_fires 4 = true :=
  (C5_spawn_timer_contract.2 4 (by norm_num)).mpr (by norm_num)

/-- Claim C6: each frame of the flight-avoidance integrator adds
`gravity * dt` to the velocity and then adds the resulting velocity — not
multiplied by `dt` — to the position; from zero velocity, after `n` steps
of constant `dt` the vertical velocity is `n * g * dt` (and the horizontal
velocity stays 0), and each step's position change is exactly the velocity
computed in that same step. -/
theorem C6_integrator (n : ℕ) (dt : ℚ) (p0 : Vec2) :
    (((update_bird dt)^[n] ⟨p0, ⟨0, 0⟩⟩).vel.y = n * GRAVITY.y * dt
        ∧ ((update_bird dt)^[n] ⟨p0, ⟨0, 0⟩⟩).vel.x = 0)
      ∧ ∀ b : BirdState,
          (update_bird dt b).vel = ⟨b.vel.x + GRAVITY.x * dt, b.vel.y + GRAVITY.y * dt⟩
            ∧ (update_bird dt b).pos =
                ⟨b.pos.x + (update_bird dt b).vel.x, b.pos.y + (update_bird dt b).vel.y⟩ := by
  constructor
  · induction n with
    | zero => simp
    | succ n ih =>
      rw [Function.iterate_succ_apply']
      constructor
      · show ((update_bird dt)^[n] ⟨p0, ⟨0, 0⟩⟩).vel.y + GRAVITY.y * dt = _
        rw [ih.1]; push_cast; ring
      · show ((update_bird dt)^[n] ⟨p0, ⟨0, 0⟩⟩).vel.x + GRAVITY.x * dt = 0
        rw [ih.2]; norm_num [GRAVITY]
  · intro b
    exact ⟨rfl, rfl⟩

/-- Claim C7: a ball past the right-edge threshold (and within the vertical
thresholds) emerges with only its x velocity sign inverted and its
position untouched; a ball past a top/bottom threshold (and within the
horizontal thresholds) has only its y velocity sign inverted. -/
theorem C7_reflective_boundary (b : BallState)
    (hR : WINDOW_WIDTH / 2 - BALL_SIZE.x / 2 < b.pos.x)
    (hT : -(WINDOW_HEIGHT / 2) + BALL_SIZE.y / 2 ≤ b.pos.y)
    (hB : b.pos.y ≤ WINDOW_HEIGHT / 2 - BALL_SIZE.y / 2) :
    wall_collision_system b = ⟨b.pos, ⟨-b.vel.x, b.vel.y⟩⟩
      ∧ ∀ c : BallState,
          -(WINDOW_WIDTH / 2) + BALL_SIZE.x / 2 ≤ c.pos.x →
          c.pos.x ≤ WINDOW_WIDTH / 2 - BALL_SIZE.x / 2 →
          (c.pos.y < -(WINDOW_HEIGHT / 2) + BALL_SIZE.y / 2
              ∨ WINDOW_HEIGHT / 2 - BALL_SIZE.y / 2 < c.pos.y) →
          wall_collision_system c = ⟨c.pos, ⟨c.vel.x, -c.vel.y⟩⟩ := by
  constructor
  · rw [wall_collision_system]
    rw [if_pos (Or.inr hR), if_neg]
    intro hy
    rcases hy with hy | hy
    · exact absurd hT (by linarith)
    · exact absurd hB (by linarith)
  · intro c hx1 hx2 hy
    rw [wall_collision_system]
    rw [if_neg, if_pos hy]
    intro hxc
    rcases hxc with hxc | hxc
    · exact absurd hx1 (by linarith)
    · exact absurd hx2 (by linarith)

/-- Witness for C7: a ball at x = 396 (past the right threshold 395) with
velocity (300, 300) emerges with velocity (-300, 300) and the same
position. -/
theorem C7_witness :
    wall_collision_system ⟨⟨396, 0⟩, ⟨300, 300⟩⟩ = ⟨⟨396, 0⟩, ⟨-300, 300⟩⟩ :=
  (C7_reflective_boundary ⟨⟨396, 0⟩, ⟨300, 300⟩⟩
    (by norm_num [WINDOW_WIDTH, BALL_SIZE])
    (by norm_num [WINDOW_HEIGHT, BALL_SIZE])
    (by norm_num [WINDOW_HEIGHT, BALL_SIZE])).1

/-- Claim C8: the AABB overlap predicate is symmetric for all rects,
reflexive for rects of strictly positive width and height, agrees between
the two games (`aabb_collision` equals `Rect::overlaps` on the rects built
from the same centers and sizes), and is strict: rects whose edges exactly
touch on some axis do not overlap, and rects separated by more than the
sum of half-extents on some axis never overlap. -/
theorem C8_aabb_properties (a b : Rect) (ca sa cb sb : Vec2) :
    (a.overlaps b = b.overlaps a)
      ∧ (a.min.x < a.max.x → a.min.y < a.max.y → a.overlaps a = true)
      ∧ (aabb_collision ca sa cb sb
          = (Rect.from_center_size ca sa).overlaps (Rect.from_center_size cb sb))
      ∧ (|ca.x - cb.x| = (sa.x + sb.x) / 2 →
          (Rect.from_center_size ca sa).overlaps (Rect.from_center_size cb sb) = false)
      ∧ (|ca.y - cb.y| = (sa.y + sb.y) / 2 →
          (Rect.from_center_size ca sa).overlaps (Rect.from_center_size cb sb) = false)
      ∧ ((sa.x + sb.x) / 2 < |ca.x - cb.x| →
          (Rect.from_center_size ca sa).overlaps (Rect.from_center_size cb sb) = false)
      ∧ ((sa.y + sb.y) / 2 < |ca.y - cb.y| →
          (Rect.from_center_size ca sa).overlaps (Rect.from_center_size cb sb) = false) := by
  refine ⟨?_, ?_, ?_, ?_, ?_, ?_, ?_⟩
  · rw [Bool.eq_iff_iff]
    simp only [Rect.overlaps, Bool.and_eq_true, decide_eq_true_eq, gt_iff_lt]
    tauto
  · intro hx hy
    simp only [Rect.overlaps, Bool.and_eq_true, decide_eq_true_eq, gt_iff_lt]
    exact ⟨⟨⟨hx, hx⟩, hy⟩, hy⟩
  · rw [Bool.eq_iff_iff]
    simp only [aabb_collision, Rect.overlaps, Rect.from_center_size, Bool.and_eq_true,
      decide_eq_true_eq, gt_iff_lt, abs_lt]
    constructor
    · rintro ⟨⟨hx1, hx2⟩, hy1, hy2⟩
      exact ⟨⟨⟨by linarith, by linarith⟩, by linarith⟩, by linarith⟩
    · rintro ⟨⟨⟨hx1, hx2⟩, hy1⟩, hy2⟩
      exact ⟨⟨by linarith, by linarith⟩, by linarith, by linarith⟩
  · intro h
    rw [Bool.eq_false_iff]
    intro hc
    simp only [Rect.overlaps, Rect.from_center_size, Bool.and_eq_true, decide_eq_true_eq,
      gt_iff_lt] at hc
    obtain ⟨⟨⟨hx1, hx2⟩, hy1⟩, hy2⟩ := hc
    rcases abs_cases (ca.x - cb.x) with ⟨he, _⟩ | ⟨he, _⟩ <;> rw [he] at h <;> linarith
  · intro h
    rw [Bool.eq_false_iff]
    intro hc
    simp only [Rect.overlaps, Rect.from_center_size, Bool.and_eq_true, decide_eq_true_eq,
      gt_iff_lt] at hc
    obtain ⟨⟨⟨hx1, hx2⟩, hy1⟩, hy2⟩ := hc
    rcases abs_cases (ca.y - cb.y) with ⟨he, _⟩ | ⟨he, _⟩ <;> rw [he] at h <;> linarith
  · intro h
    rw [Bool.eq_false_iff]
    intro hc
    simp only [Rect.overlaps, Rect.from_center_size, Bool.and_eq_true, decide_eq_true_eq,
      gt_iff_lt] at hc
    obtain ⟨⟨⟨hx1, hx2⟩, hy1⟩, hy2⟩ := hc
    rcases abs_cases (ca.x - cb.x) with ⟨he, _⟩ | ⟨he, _⟩ <;> rw [he] at h <;> linarith
  · intro h
    rw [Bool.eq_false_iff]
    intro hc
    simp only [Rect.overlaps, Rect.from_center_size, Bool.and_eq_true, decide_eq_true_eq,
      gt_iff_lt] at hc
    obtain ⟨⟨⟨hx1, hx2⟩, hy1⟩, hy2⟩ := hc
    rcases abs_cases (ca.y - cb.y) with ⟨he, _⟩ | ⟨he, _⟩ <;> rw [he] at h <;> linarith

/-- Witness for C8: the unit square overlaps itself, and two 2-by-2 rects
whose edges exactly touch (centers 2 apart on the x axis) do not
overlap. -/
theorem C8_witness :
    (Rect.overlaps ⟨⟨0, 0⟩, ⟨1, 1⟩⟩ ⟨⟨0, 0⟩, ⟨1, 1⟩⟩ = true)
      ∧ (Rect.from_center_size ⟨0, 0⟩ ⟨2, 2⟩).overlaps
          (Rect.from_center_size ⟨2, 0⟩ ⟨2, 2⟩) = false :=
  ⟨(C8_aabb_properties ⟨⟨0, 0⟩, ⟨1, 1⟩⟩ ⟨⟨0, 0⟩, ⟨1, 1⟩⟩ ⟨0, 0⟩ ⟨2, 2⟩ ⟨2, 0⟩ ⟨2, 2⟩).2.1
      (by norm_num) (by norm_num),
   (C8_aabb_properties ⟨⟨0, 0⟩, ⟨1, 1⟩⟩ ⟨⟨0, 0⟩, ⟨1, 1⟩⟩ ⟨0, 0⟩ ⟨2, 2⟩ ⟨2, 0⟩ ⟨2, 2⟩).2.2.2.1
      (by norm_num)⟩

/-- Claim C9: for every stored direction the program can hold (the
`Direction` resource starts at `Vec2::X` and is only ever assigned axis
unit vectors) and every combination of pressed arrow keys, the direction
after `snake_input_system` is never the exact negation of the direction
held before, and it remains an axis unit vector. -/
theorem C9_no_reversal (keys : Keys) (d : Vec2) (hd : d ∈ unit_dirs) :
    snake_input_system keys d ≠ -d
      ∧ snake_input_system keys d ∈ unit_dirs
      ∧ (⟨1, 0⟩ : Vec2) ∈ unit_dirs := by
  simp only [unit_dirs, List.mem_cons, List.not_mem_nil, or_false] at hd
  rcases keys with ⟨u, dn, l, r⟩
  rcases hd with h | h | h | h <;> subst h <;>
    cases u <;> cases dn <;> cases l <;> cases r <;>
      refine ⟨?_, by norm_num [snake_input_system, unit_dirs], by norm_num [unit_dirs]⟩ <;>
        norm_num [snake_input_system, Vec2.neg_def]

/-- Witness for C9: pressing Up while moving down (direction `(0, -1)`)
does not produce the reversal `(0, 1)` of the prior direction... the
direction stays `(0, -1)`, which is not the negation of `(0, -1)`. -/
theorem C9_witness :
    snake_input_system ⟨true, false, false, false⟩ ⟨0, -1⟩ ≠ -(⟨0, -1⟩ : Vec2) :=
  (C9_no_reversal ⟨true, false, false, false⟩ ⟨0, -1⟩ (by norm_num [unit_dirs])).1

/-- Claim C10: a ball-paddle collision step leaves the ball's position and
x velocity unchanged; if some paddle overlaps the ball, the y velocity is
inverted exactly once (even if both paddles overlap, since the loop
returns after the first hit), and if no paddle overlaps it is unchanged.
The paddle query is an immutable borrow, so paddle state is untouched. -/
theorem C10_paddle_collision_effect (ball : BallState) (paddles : List Vec2) :
    (paddle_collision_system ball paddles).pos = ball.pos
      ∧ (paddle_collision_system ball paddles).vel.x = ball.vel.x
      ∧ ((∃ p ∈ paddles, aabb_collision ball.pos BALL_SIZE p PADDLE_SIZE = true) →
          (paddle_collision_system ball paddles).vel.y = -ball.vel.y)
      ∧ ((∀ p ∈ paddles, aabb_collision ball.pos BALL_SIZE p PADDLE_SIZE = false) →
          (paddle_collision_system ball paddles).vel.y = ball.vel.y) := by
  induction paddles with
  | nil => simp [paddle_collision_system]
  | cons p ps ih =>
    by_cases h : aabb_collision ball.pos BALL_SIZE p PADDLE_SIZE = true
    · simp [paddle_collision_system, h]
    · simp only [paddle_collision_system, if_neg h]
      refine ⟨ih.1, ih.2.1, ?_, ?_⟩
      · rintro ⟨q, hq, hqc⟩
        rcases List.mem_cons.mp hq with rfl | hq2
        · exact absurd hqc h
        · exact ih.2.2.1 ⟨q, hq2, hqc⟩
      · intro hall
        exact ih.2.2.2 fun q hq => hall q (List.mem_cons_of_mem _ hq)

/-- Witness for C10: a ball overlapping BOTH paddles has its y velocity
inverted exactly once. -/
theorem C10_witness :
    (paddle_collision_system ⟨⟨0, 0⟩, ⟨300, 300⟩⟩ [⟨0, 0⟩, ⟨0, 0⟩]).vel.y
      = -(⟨⟨0, 0⟩, ⟨300, 300⟩⟩ : BallState).vel.y :=
  (C10_paddle_collision_effect ⟨⟨0, 0⟩, ⟨300, 300⟩⟩ [⟨0, 0⟩, ⟨0, 0⟩]).2.2.1
    ⟨⟨0, 0⟩, by simp, by norm_num [aabb_collision, BALL_SIZE, PADDLE_SIZE]⟩
